import Mathlib

/-!
Shallow embedding of `src/plugins/rtsp/src/rtsp.ts` (scrypted RTSP plugin).

The per-device configuration is the host platform's string key/value store
(`this.storage`); `getItem` returns `null` for an absent key, which we model
with `Option String`.  JavaScript-specific behaviour that matters here:

* `x || d` on a string-or-null `x` yields `d` when `x` is `null` or `""`;
* a template literal stringifies `null` as the four characters `"null"`;
* `EventEmitter.emit` runs the registered handler synchronously, while a
  `setTimeout(f, 10000)` callback runs only once the (virtual) clock has
  advanced 10000 ms.

Effectful code (the smart camera's listen loop, the provider's discovery
notification) is embedded as explicit state passing together with a trace of
the externally observable actions each call performs.
-/

namespace Rtsp

/-- The per-device key/value configuration map (`this.storage`). -/
def Store := List (String × String)

instance : DecidableEq Store := inferInstanceAs (DecidableEq (List (String × String)))

/-- `storage.getItem(key)`: the stored value, or `none` for JS `null`. -/
def getItem (st : Store) (key : String) : Option String :=
  st.lookup key

/-- `storage.setItem(key, value)`: later writes shadow earlier ones. -/
def setItem (st : Store) (key value : String) : Store :=
  (key, value) :: st

/-- The `value: string | number` argument of `putSetting`. -/
inductive SettingValue where
  | str (s : String)
  | num (n : Int)
deriving DecidableEq

/-- `value.toString()` (JS integer formatting for the numeric case). -/
def SettingValue.jsToString : SettingValue → String
  | .str s => s
  | .num n => toString n

/-- JS template-literal interpolation of a string-or-null value:
`null` prints as the literal text `"null"`. -/
def jsInterp : Option String → String
  | none => "null"
  | some s => s

/-! ## RtspCamera (base adapter) -/

/-- The capability descriptor returned by `getVideoStreamOptions`.
In the source the `video` field is always `{}` and the `audio` field is
either `{}` or `null`; we model `{}` as `some ()` and `null` as `none`. -/
structure MediaStreamOptions where
  video : Option Unit
  audio : Option Unit
deriving DecidableEq

/-- `RtspCamera.isAudioDisabled`: the stored `noAudio` value is exactly
the string `"true"`. -/
def isAudioDisabled (st : Store) : Bool :=
  getItem st "noAudio" == some "true"

/-- `RtspCamera.getVideoStreamOptions`: a single descriptor, video always
present, audio `null` exactly when audio is disabled. -/
def getVideoStreamOptions (st : Store) : List MediaStreamOptions :=
  [{ video := some (), audio := if isAudioDisabled st then none else some () }]

/-- `RtspCamera.putSetting`: store `value.toString()` under `key`. -/
def putSetting (st : Store) (key : String) (value : SettingValue) : Store :=
  setItem st key value.jsToString

/-! ## RtspSmartCamera: URL construction -/

/-- `RtspSmartCamera.isAnalogueCamera`: stored value is exactly `"true"`. -/
def isAnalogueCamera (st : Store) : Bool :=
  getItem st "isAnalogueCamera" == some "true"

/-- `RtspSmartCamera.getRtspChannel`: `storage.getItem('rtspChannel') || ''`. -/
def getRtspChannel (st : Store) : String :=
  match getItem st "rtspChannel" with
  | none => ""
  | some v => if v = "" then "" else v

/-- `RtspSmartCamera.getRtspUrl`: the raw stored override (string or null). -/
def getRtspUrl (st : Store) : Option String :=
  getItem st "rtspUrlOverride"

/-- `RtspSmartCamera.getRtspUrlParams`:
`storage.getItem('rtspUrlParams') || '?transportmode=unicast'`. -/
def getRtspUrlParams (st : Store) : String :=
  match getItem st "rtspUrlParams" with
  | none => "?transportmode=unicast"
  | some v => if v = "" then "?transportmode=unicast" else v

/-- `RtspSmartCamera.getAnalogueCameraUrl`:
the template literal `` `${url}/${channel}01/${params}` `` where `url` may be
`null` (interpolated as `"null"`). -/
def getAnalogueCameraUrl (st : Store) : String :=
  jsInterp (getRtspUrl st) ++ "/" ++ getRtspChannel st ++ "01/" ++ getRtspUrlParams st

/-- `RtspSmartCamera.getRtspUrlOverride`: the analogue URL when
`isAnalogueCamera()` holds and the channel is truthy (non-empty), else the
raw stored override. -/
def getRtspUrlOverride (st : Store) : Option String :=
  if isAnalogueCamera st && !(getRtspChannel st == "") then
    some (getAnalogueCameraUrl st)
  else
    getRtspUrl st

/-- `RtspSmartCamera.getStreamUrl`:
`this.getRtspUrlOverride() || await this.getConstructedStreamUrl()`.
The abstract collaborator `getConstructedStreamUrl` is passed as the
`constructed` argument. -/
def getStreamUrl (st : Store) (constructed : String) : String :=
  match getRtspUrlOverride st with
  | none => constructed
  | some s => if s = "" then constructed else s

/-! ## RtspSmartCamera: listen loop

The constructor calls `listenLoop()`, which acquires a subscription via the
abstract `listenEvents()` and registers an `'error'` handler; the handler
logs the error and schedules `listenLoop()` again via `setTimeout(_, 10000)`.
`putSetting` writes through to storage and then synchronously emits `'error'`
on the current listener, so the registered handler runs in the same turn.

We embed this as a state (storage, count of `listenEvents()` calls, the
absolute fire times of the pending `setTimeout` callbacks, the virtual clock)
plus, for each entry point, the trace of observable actions it performs. -/

/-- One externally observable action of the smart camera. -/
inductive Action where
  /-- `this.console.error('listen loop error, restarting in 10 seconds', e)` -/
  | logError
  /-- a call to the abstract `listenEvents()` collaborator -/
  | callListenEvents
  /-- `setTimeout(() => this.listenLoop(), delay)` -/
  | setTimeoutRestart (delay : Nat)
  /-- `this.storage.setItem(key, value.toString())` -/
  | writeStore (key value : String)
deriving DecidableEq

/-- State of one `RtspSmartCamera` instance under a virtual clock. -/
structure SmartState where
  store : Store
  /-- how many times `listenEvents()` has been called so far -/
  listenCount : Nat
  /-- absolute virtual times at which a scheduled `listenLoop()` will fire -/
  pending : List Nat
  /-- the virtual clock, in milliseconds -/
  now : Nat
deriving DecidableEq

/-- `listenLoop()`: acquire a fresh subscription (`listenEvents()`) and
register the error handler on it. -/
def listenLoop (s : SmartState) : SmartState × List Action :=
  ({ s with listenCount := s.listenCount + 1 }, [.callListenEvents])

/-- The registered `'error'` handler: log, then schedule a restart in
10000 ms. -/
def errorHandler (s : SmartState) : SmartState × List Action :=
  ({ s with pending := s.pending ++ [s.now + 10000] },
   [.logError, .setTimeoutRestart 10000])

/-- The `RtspSmartCamera` constructor: `super(nativeId)` then
`this.listenLoop()`. -/
def newSmartCamera (st : Store) : SmartState × List Action :=
  listenLoop { store := st, listenCount := 0, pending := [], now := 0 }

/-- `RtspSmartCamera.putSetting`: `super.putSetting(key, value)` (a storage
write), then `this.listener.emit('error', new Error("new settings"))`, which
synchronously runs the registered error handler. -/
def smartPutSetting (s : SmartState) (key : String) (value : SettingValue) :
    SmartState × List Action :=
  let s1 : SmartState := { s with store := putSetting s.store key value }
  let r := errorHandler s1
  (r.1, .writeStore key value.jsToString :: r.2)

/-- Advance the virtual clock to time `t`: every pending `setTimeout`
callback whose fire time has arrived runs `listenLoop()` (one
`listenEvents()` call each); the rest stay pending. -/
def fireDue (s : SmartState) (t : Nat) : SmartState :=
  { store := s.store
    listenCount := s.listenCount + (s.pending.filter (fun d => d ≤ t)).length
    pending := s.pending.filter (fun d => t < d)
    now := t }

/-! ## RtspProvider -/

/-- The two interface constants the provider always declares, plus whatever
a subclass adds through `getAdditionalInterfaces()`. -/
inductive ScryptedInterfaceV where
  | VideoCamera
  | Settings
  | other (name : String)
deriving DecidableEq

/-- The `{nativeId, name, interfaces, type}` record passed to
`deviceManager.onDeviceDiscovered`. -/
structure DiscoveredDevice where
  nativeId : String
  name : String
  interfaces : List ScryptedInterfaceV
  type : String
deriving DecidableEq

/-- One externally observable action of `RtspProvider.putSetting`. -/
inductive ProviderAction where
  /-- `deviceManager.onDeviceDiscovered(...)` -/
  | onDeviceDiscovered (d : DiscoveredDevice)
  /-- `log.a(text)` -/
  | alert (text : String)
  /-- `log.clearAlert(text)` -/
  | clearAlert (text : String)
deriving DecidableEq

/-- Whether a provider action is a discovery notification. -/
def ProviderAction.isDiscovery : ProviderAction → Bool
  | .onDeviceDiscovered _ => true
  | _ => false

/-- `RtspProvider.putSetting(key, value)`: generate a random id (modelled by
the injected generator output `rand`, since `Math.random().toString()` is the
only source of the id), notify the host of a discovered Camera device named
`value.toString()`, then raise and immediately clear the setup alert.
`additional` is the result of the overridable `getAdditionalInterfaces()`
(empty in the base provider). -/
def providerPutSetting (rand : String) (additional : List ScryptedInterfaceV)
    (_key : String) (value : SettingValue) : List ProviderAction :=
  let nativeId := rand
  let name := value.jsToString
  let text := "New Camera " ++ name ++ " ready. Check the notification area to complete setup."
  [ .onDeviceDiscovered
      { nativeId := nativeId
        name := name
        interfaces := [.VideoCamera, .Settings] ++ additional
        type := "Camera" },
    .alert text,
    .clearAlert text ]

/-- Provider registry state: `devices` maps a native id to the adapter
instance cached for it.  Object identity of adapter instances is modelled by
a fresh token drawn from `nextToken` at each `createCamera` call. -/
structure ProviderState where
  devices : List (String × Nat)
  nextToken : Nat
deriving DecidableEq

/-- `RtspProvider.createCamera`: `new RtspCamera(nativeId)` — always a fresh
(truthy) instance. -/
def createCamera (p : ProviderState) : ProviderState × Nat :=
  ({ p with nextToken := p.nextToken + 1 }, p.nextToken)

/-- `RtspProvider.getDevice(nativeId)`: return the cached adapter, or create
one via the factory and cache it. -/
def getDevice (p : ProviderState) (nativeId : String) : ProviderState × Nat :=
  match p.devices.lookup nativeId with
  | some ret => (p, ret)
  | none =>
    let r := createCamera p
    ({ r.1 with devices := (nativeId, r.2) :: r.1.devices }, r.2)

end Rtsp

namespace Rtsp

/-- C1: `getVideoStreamOptions()` returns a single capability descriptor
whose video capability is always present and whose audio capability is
omitted exactly when the stored `noAudio` value is the string `"true"`;
for a missing key or any other string the audio capability is present. -/
theorem audio_capability (st : Store) :
    ∃ d, getVideoStreamOptions st = [d] ∧ d.video = some () ∧
      (d.audio = none ↔ getItem st "noAudio" = some "true") ∧
      (d.audio = some () ↔ getItem st "noAudio" ≠ some "true") := by
  refine ⟨_, rfl, rfl, ?_, ?_⟩ <;>
    simp only [getVideoStreamOptions, isAudioDisabled] <;>
    by_cases h : getItem st "noAudio" = some "true" <;> simp [h]

/-- C2: when `isAnalogueCamera` is `"true"` and a non-empty channel is set,
`getRtspUrlOverride()` is the literal concatenation
`{rtspUrlOverride}/{channel}01/{params}` (channel concatenated with the
fixed suffix `"01"`); in particular the spec's concrete configuration yields
`"rtsp://host/201/?x=1"`. -/
theorem analogue_url_concat :
    (∀ (st : Store) (url ch : String),
        getItem st "isAnalogueCamera" = some "true" →
        getItem st "rtspChannel" = some ch → ch ≠ "" →
        getItem st "rtspUrlOverride" = some url →
        getRtspUrlOverride st
          = some (url ++ "/" ++ ch ++ "01/" ++ getRtspUrlParams st)) ∧
    getRtspUrlOverride
        [("isAnalogueCamera", "true"), ("rtspChannel", "2"),
         ("rtspUrlOverride", "rtsp://host"), ("rtspUrlParams", "?x=1")]
      = some "rtsp://host/201/?x=1" := by
  constructor
  · intro st url ch ha hc hch ho
    have hch' : getRtspChannel st = ch := by simp [getRtspChannel, hc, hch]
    simp [getRtspUrlOverride, isAnalogueCamera, ha, hch', hch,
      getAnalogueCameraUrl, getRtspUrl, ho, jsInterp]
  · decide

/-- Witness for C2 at a second concrete configuration. -/
theorem analogue_url_concat_witness :
    getRtspUrlOverride
        [("isAnalogueCamera", "true"), ("rtspChannel", "7"),
         ("rtspUrlOverride", "rtsp://nvr"), ("rtspUrlParams", "?p=2")]
      = some "rtsp://nvr/701/?p=2" := by
  have h := analogue_url_concat.1
    [("isAnalogueCamera", "true"), ("rtspChannel", "7"),
     ("rtspUrlOverride", "rtsp://nvr"), ("rtspUrlParams", "?p=2")]
    "rtsp://nvr" "7" (by decide) (by decide) (by decide) (by decide)
  rw [h]; decide

/-- C6: when `isAnalogueCamera` is not the string `"true"` (including unset)
or the channel is empty, `getRtspUrlOverride()` returns the raw stored
`rtspUrlOverride` value unchanged (possibly `none` or the empty string). -/
theorem raw_override_passthrough (st : Store)
    (h : getItem st "isAnalogueCamera" ≠ some "true" ∨ getRtspChannel st = "") :
    getRtspUrlOverride st = getItem st "rtspUrlOverride" := by
  rcases h with h | h
  · simp [getRtspUrlOverride, isAnalogueCamera, getRtspUrl, h]
  · simp [getRtspUrlOverride, getRtspUrl, h]

/-- Witness for C6: with only an empty-string override stored, the empty
string comes back unchanged. -/
theorem raw_override_passthrough_witness :
    getRtspUrlOverride [("rtspUrlOverride", "")] = some "" :=
  raw_override_passthrough [("rtspUrlOverride", "")] (Or.inl (by decide))

/-- C5: the smart adapter's `getStreamUrl()` returns `getRtspUrlOverride()`
whenever that value is a non-empty string, and otherwise (override `null` or
empty) returns the subclass-supplied constructed URL. -/
theorem stream_url_fallback (st : Store) (constructed : String) :
    (∀ s, getRtspUrlOverride st = some s → s ≠ "" →
      getStreamUrl st constructed = s) ∧
    ((getRtspUrlOverride st = none ∨ getRtspUrlOverride st = some "") →
      getStreamUrl st constructed = constructed) := by
  constructor
  · intro s hs hne
    simp [getStreamUrl, hs, hne]
  · rintro (h | h) <;> simp [getStreamUrl, h]

/-- Witness for C5: both branches at concrete configurations. -/
theorem stream_url_fallback_witness :
    getStreamUrl [("rtspUrlOverride", "rtsp://x")] "rtsp://fallback" = "rtsp://x" ∧
    getStreamUrl [] "rtsp://fallback" = "rtsp://fallback" :=
  ⟨(stream_url_fallback [("rtspUrlOverride", "rtsp://x")] "rtsp://fallback").1
      "rtsp://x" (by decide) (by decide),
   (stream_url_fallback [] "rtsp://fallback").2 (Or.inl (by decide))⟩

/-- C9: with `isAnalogueCamera = "true"` and a non-empty channel but no
stored `rtspUrlOverride`, the template literal interpolates JS `null` as the
text `"null"`, so `getAnalogueCameraUrl()` is the non-empty string
`"null/" ++ channel ++ "01/" ++ params`; `getRtspUrlOverride()` is that
non-empty string, and `getStreamUrl()` returns it instead of falling back to
the constructed URL. -/
theorem null_url_malformed (st : Store) (ch : String)
    (ha : getItem st "isAnalogueCamera" = some "true")
    (hc : getItem st "rtspChannel" = some ch) (hch : ch ≠ "")
    (ho : getItem st "rtspUrlOverride" = none) :
    getAnalogueCameraUrl st = "null/" ++ ch ++ "01/" ++ getRtspUrlParams st ∧
    getAnalogueCameraUrl st ≠ "" ∧
    getRtspUrlOverride st = some (getAnalogueCameraUrl st) ∧
    ∀ constructed, getStreamUrl st constructed = getAnalogueCameraUrl st := by
  have hch' : getRtspChannel st = ch := by simp [getRtspChannel, hc, hch]
  have hn : ("null" : String) ++ "/" = "null/" := rfl
  have h1 : getAnalogueCameraUrl st = "null/" ++ ch ++ "01/" ++ getRtspUrlParams st := by
    simp only [getAnalogueCameraUrl, getRtspUrl, ho, jsInterp, hch', hn]
  have h2 : getAnalogueCameraUrl st ≠ "" := by
    rw [h1]
    intro hemp
    have hlen := congrArg String.length hemp
    simp [String.length_append] at hlen
    exact absurd hlen.1.1.1 (by decide)
  have h3 : getRtspUrlOverride st = some (getAnalogueCameraUrl st) := by
    simp [getRtspUrlOverride, isAnalogueCamera, ha, hch', hch]
  refine ⟨h1, h2, h3, fun constructed => ?_⟩
  simp [getStreamUrl, h3, h2]

/-- Witness for C9 at a concrete configuration with no stored override. -/
theorem null_url_malformed_witness :
    getRtspUrlOverride [("isAnalogueCamera", "true"), ("rtspChannel", "2")]
      = some "null/201/?transportmode=unicast" := by
  have h := null_url_malformed
    [("isAnalogueCamera", "true"), ("rtspChannel", "2")] "2"
    (by decide) (by decide) (by decide) (by decide)
  rw [h.2.2.1, h.1]; decide

/-- C10: the params component used in the analogue-camera URL defaults to
`"?transportmode=unicast"` when the `rtspUrlParams` key is absent or stores
the empty string, and any non-empty stored value is used verbatim. -/
theorem params_default (st : Store) :
    ((getItem st "rtspUrlParams" = none ∨ getItem st "rtspUrlParams" = some "") →
      getRtspUrlParams st = "?transportmode=unicast" ∧
      getAnalogueCameraUrl st
        = jsInterp (getRtspUrl st) ++ "/" ++ getRtspChannel st ++ "01/"
            ++ "?transportmode=unicast") ∧
    (∀ v, getItem st "rtspUrlParams" = some v → v ≠ "" →
      getRtspUrlParams st = v ∧
      getAnalogueCameraUrl st
        = jsInterp (getRtspUrl st) ++ "/" ++ getRtspChannel st ++ "01/" ++ v) := by
  constructor
  · intro h
    have hp : getRtspUrlParams st = "?transportmode=unicast" := by
      rcases h with h | h <;> simp [getRtspUrlParams, h]
    exact ⟨hp, by simp only [getAnalogueCameraUrl, hp]⟩
  · intro v h hv
    have hp : getRtspUrlParams st = v := by simp [getRtspUrlParams, h, hv]
    exact ⟨hp, by simp only [getAnalogueCameraUrl, hp]⟩

/-- Witness for C10: the default and the verbatim branch at concrete stores. -/
theorem params_default_witness :
    getRtspUrlParams [] = "?transportmode=unicast" ∧
    getRtspUrlParams [("rtspUrlParams", "?a=b")] = "?a=b" :=
  ⟨((params_default []).1 (Or.inl (by decide))).1,
   ((params_default [("rtspUrlParams", "?a=b")]).2 "?a=b" (by decide) (by decide)).1⟩

/-- C3 as stated is false: `putSetting` on a smart adapter performs the
storage write and then synchronously runs the error handler, whose trace
contains no `listenEvents()` call — it only schedules a restart 10000 ms
out.  At this concrete state (one acquisition so far, clock at 0, nothing
pending), no new acquisition happens in the same turn, nor after firing
every timer due at the current instant, nor at any instant up to 9999 ms —
not the "exactly one within the same or next scheduler turn" the claim
demands. -/
theorem put_setting_no_immediate_acquisition :
    (smartPutSetting { store := [], listenCount := 1, pending := [], now := 0 }
        "username" (.str "admin")).2.count Action.callListenEvents = 0 ∧
    (fireDue (smartPutSetting
        { store := [], listenCount := 1, pending := [], now := 0 }
        "username" (.str "admin")).1 0).listenCount = 1 ∧
    (fireDue (smartPutSetting
        { store := [], listenCount := 1, pending := [], now := 0 }
        "username" (.str "admin")).1 9999).listenCount = 1 := by
  decide

/-- C3 amended: `putSetting` first writes the value, then synchronously runs
the listener's error handler, which logs and schedules exactly one restart
10000 ms later; no new `listenEvents()` call happens before the delay
elapses, and exactly one happens once it does. -/
theorem smart_put_setting_schedules (s : SmartState) (key : String)
    (v : SettingValue) (hp : s.pending = []) :
    (smartPutSetting s key v).1.store = setItem s.store key v.jsToString ∧
    (smartPutSetting s key v).2
      = [.writeStore key v.jsToString, .logError, .setTimeoutRestart 10000] ∧
    (smartPutSetting s key v).1.pending = [s.now + 10000] ∧
    (∀ t, t < s.now + 10000 →
      (fireDue (smartPutSetting s key v).1 t).listenCount = s.listenCount) ∧
    (∀ t, s.now + 10000 ≤ t →
      (fireDue (smartPutSetting s key v).1 t).listenCount = s.listenCount + 1) := by
  have hps : (smartPutSetting s key v).1.pending = [s.now + 10000] := by
    simp [smartPutSetting, errorHandler, hp]
  refine ⟨rfl, rfl, hps, ?_, ?_⟩
  · intro t ht
    have hle : ¬(s.now + 10000 ≤ t) := by omega
    simp [fireDue, hps, List.filter_cons, hle]
    rfl
  · intro t ht
    simp [fireDue, hps, List.filter_cons, ht]
    rfl

/-- Witness for the amended C3: at a concrete state the restart fires at
exactly 10000 ms and performs the one new acquisition. -/
theorem smart_put_setting_schedules_witness :
    (fireDue (smartPutSetting
        { store := [], listenCount := 1, pending := [], now := 0 }
        "username" (.str "admin")).1 10000).listenCount = 2 := by
  have h := smart_put_setting_schedules
    { store := [], listenCount := 1, pending := [], now := 0 }
    "username" (.str "admin") rfl
  exact h.2.2.2.2 10000 (by decide)

/-- C4: after the active subscription emits an error, the handler logs the
error before scheduling the restart; no new subscription is acquired at any
instant before 10000 ms have elapsed, exactly one is acquired at or after
the delay, and the loop has no terminal state: once the restart has fired,
a further error again schedules another 10-second restart. -/
theorem error_backoff (s : SmartState) (hp : s.pending = []) :
    (errorHandler s).2 = [.logError, .setTimeoutRestart 10000] ∧
    (errorHandler s).1.listenCount = s.listenCount ∧
    (∀ t, t < s.now + 10000 →
      (fireDue (errorHandler s).1 t).listenCount = s.listenCount) ∧
    (∀ t, s.now + 10000 ≤ t →
      (fireDue (errorHandler s).1 t).listenCount = s.listenCount + 1) ∧
    (∀ t, s.now + 10000 ≤ t →
      (errorHandler (fireDue (errorHandler s).1 t)).1.pending = [t + 10000]) := by
  have hps : (errorHandler s).1.pending = [s.now + 10000] := by
    simp [errorHandler, hp]
  refine ⟨rfl, rfl, ?_, ?_, ?_⟩
  · intro t ht
    have hle : ¬(s.now + 10000 ≤ t) := by omega
    simp [fireDue, hps, List.filter_cons, hle]
    rfl
  · intro t ht
    simp [fireDue, hps, List.filter_cons, ht]
    rfl
  · intro t ht
    have hle : ¬(t < s.now + 10000) := by omega
    simp [errorHandler, fireDue, hp, List.filter_cons, hle]

/-- Witness for C4: at a concrete state (clock at 5 ms) nothing is acquired
at 10004 ms and exactly one acquisition has happened at 10005 ms. -/
theorem error_backoff_witness :
    (fireDue (errorHandler
        { store := [], listenCount := 1, pending := [], now := 5 }).1
      10004).listenCount = 1 ∧
    (fireDue (errorHandler
        { store := [], listenCount := 1, pending := [], now := 5 }).1
      10005).listenCount = 2 := by
  have h := error_backoff
    { store := [], listenCount := 1, pending := [], now := 5 } rfl
  exact ⟨h.2.2.1 10004 (by decide), h.2.2.2.1 10005 (by decide)⟩

/-- C7: the provider's `putSetting` ignores the key and produces exactly the
trace: one discovery notification whose name is the stringified value, whose
interfaces are VideoCamera and Settings plus the subclass additions, whose
type is `"Camera"` and whose native id is the generator output; then an
alert that is immediately cleared.  Whenever the injected generator output
differs from every previously generated identifier, so does the discovered
device's native id. -/
theorem provider_discovery (rand : String)
    (additional : List ScryptedInterfaceV) (k k' : String) (v : SettingValue) :
    providerPutSetting rand additional k v
      = providerPutSetting rand additional k' v ∧
    providerPutSetting rand additional k v
      = [ .onDeviceDiscovered
            { nativeId := rand
              name := v.jsToString
              interfaces := [.VideoCamera, .Settings] ++ additional
              type := "Camera" },
          .alert ("New Camera " ++ v.jsToString
            ++ " ready. Check the notification area to complete setup."),
          .clearAlert ("New Camera " ++ v.jsToString
            ++ " ready. Check the notification area to complete setup.") ] ∧
    ((providerPutSetting rand additional k v).filter ProviderAction.isDiscovery).length
      = 1 ∧
    (∀ prev : List String, rand ∉ prev →
      ∀ d, ProviderAction.onDeviceDiscovered d ∈ providerPutSetting rand additional k v →
        d.nativeId ∉ prev) := by
  refine ⟨rfl, rfl, rfl, ?_⟩
  intro prev hfresh d hd
  simp [providerPutSetting] at hd
  rw [hd]
  exact hfresh

/-- Witness for C7: a concrete provider `putSetting` call with injected id
`"0.123"`, shown independent of the key and fresh against the previously
generated id `"0.5"`. -/
theorem provider_discovery_witness :
    providerPutSetting "0.123" [] "anything" (.str "Back Yard")
      = providerPutSetting "0.123" [] "other-key" (.str "Back Yard") ∧
    ¬∃ d, ProviderAction.onDeviceDiscovered d
        ∈ providerPutSetting "0.123" [] "anything" (.str "Back Yard") ∧
      d.nativeId ∈ ["0.5"] := by
  have h := provider_discovery "0.123" [] "anything" "other-key" (.str "Back Yard")
  exact ⟨h.1, fun ⟨d, hd, hmem⟩ => h.2.2.2 ["0.5"] (by decide) d hd hmem⟩

/-- C8: `getDevice` is a lazy get-or-create cache: calling it again with the
same identifier returns the very same adapter instance and leaves the
registry unchanged, and a first call on a miss caches the freshly created
instance under the identifier. -/
theorem get_device_cached (p : ProviderState) (nativeId : String) :
    getDevice (getDevice p nativeId).1 nativeId = getDevice p nativeId ∧
    (p.devices.lookup nativeId = none →
      (getDevice p nativeId).1.devices.lookup nativeId
        = some (getDevice p nativeId).2) := by
  cases h : p.devices.lookup nativeId with
  | some ret =>
      constructor
      · simp [getDevice, h]
      · intro hnone
        exact absurd hnone (by simp)
  | none =>
      constructor
      · simp [getDevice, h, createCamera, List.lookup]
      · intro _
        simp [getDevice, h, createCamera, List.lookup]

/-- Witness for C8: on an empty registry, the first call caches the created
adapter under its identifier. -/
theorem get_device_cached_witness :
    (getDevice { devices := [], nextToken := 0 } "cam1").1.devices.lookup "cam1"
      = some (getDevice { devices := [], nextToken := 0 } "cam1").2 :=
  (get_device_cached { devices := [], nextToken := 0 } "cam1").2 (by decide)

end Rtsp
